import Mathlib

/-!
Verification development for the `everil-be` game-backend service: a shallow
embedding of the repository layer (`app/repositories/item_repository.py`,
`app/repositories/recipe_repository.py`), the remote-sheet fetch service
(`app/services/google_sheets_service.py`) and the router-level wiring
(`app/routers/items.py`, `app/routers/recipes.py`).

Modelling conventions:
* A pandas `DataFrame` holding entity rows is modelled as a `List` of typed
  row records; the `id` column (stored as `str` in the source after
  `astype(str)`) is a `String` field.
* Python `uuid.UUID` values are modelled by the structure `UUID` wrapping the
  canonical lowercase 36-character string form; `uuid4()` is modelled as an
  extra input (the generated identifier) to `create`, assumed fresh where a
  claim needs it, matching the documented contract of `uuid4`.
* Python exceptions that the source lets escape are modelled with `Except`;
  exceptions the source catches are modelled with `Option` outcomes.
* Network and CSV parsing are modelled by an explicit environment (`Env`)
  mapping URLs to responses and body text to parsed tables.
-/

/-- Helper for the model of Python `s.split(',')`: split a character list
at every comma (an empty input yields one empty field, exactly as in
Python). -/
def splitCommaChars : List Char → List (List Char)
  | [] => [[]]
  | c :: cs =>
    match splitCommaChars cs with
    | [] => []
    | r :: rs => if c = ',' then [] :: r :: rs else (c :: r) :: rs

/-- Model of Python `s.split(',')`. -/
def pySplitComma (s : String) : List String :=
  (splitCommaChars s.data).map String.mk

/-- Model of Python `s.strip()`: drop leading and trailing whitespace. -/
def pyStrip (s : String) : String :=
  ⟨((s.data.dropWhile Char.isWhitespace).reverse.dropWhile
      Char.isWhitespace).reverse⟩

/-- Lowercasing used by identifier normalisation. -/
def lowerString (s : String) : String :=
  ⟨s.data.map Char.toLower⟩

/-- Predicate for a hexadecimal digit character, as accepted in the canonical
UUID string form. -/
def isHexDigit (c : Char) : Bool :=
  c.isDigit || (('a' ≤ c) && (c ≤ 'f')) || (('A' ≤ c) && (c ≤ 'F'))

/-- Canonical 8-4-4-4-12 UUID string shape: 36 characters, hyphens at
positions 8, 13, 18 and 23, hex digits elsewhere. -/
def isCanonicalUUIDString (s : String) : Bool :=
  s.length == 36 &&
    (s.toList.enum.all fun p =>
      if p.1 == 8 || p.1 == 13 || p.1 == 18 || p.1 == 23 then p.2 == '-'
      else isHexDigit p.2)

/-- Model of Python `uuid.UUID`: the canonical lowercase string form.
`str(u)` in the source corresponds to `UUID.str`. -/
structure UUID where
  val : String
deriving DecidableEq, Repr

/-- Model of Python `str(uuid)`. -/
def UUID.str (u : UUID) : String := u.val

/-- Model of the `UUID(s)` constructor applied to a string: succeeds exactly
on canonically shaped strings (normalising hex case), fails (raises
`ValueError` in the source) otherwise. -/
def parseUUID (s : String) : Option UUID :=
  if isCanonicalUUIDString s then some ⟨lowerString s⟩ else none

/-! ## Data model (`app/models/item.py`, `app/models/recipe.py`) -/

/-- Model of pydantic `ItemCreate` (`app/models/item.py`). -/
structure ItemCreate where
  name : String
  description : String
  type : String
  rarity : String
  price : Int
  stackable : Bool
  max_stack : Int
  logo_prompt : Option String
  logo_url : Option String
deriving DecidableEq, Repr

/-- Model of pydantic `Item` (`app/models/item.py`). -/
structure Item where
  id : UUID
  name : String
  description : String
  type : String
  rarity : String
  price : Int
  stackable : Bool
  max_stack : Int
  logo_prompt : Option String
  logo_url : Option String
deriving DecidableEq, Repr

/-- Model of pydantic `RecipeCreate` (`app/models/recipe.py`). -/
structure RecipeCreate where
  name : String
  result_item_id : UUID
  result_quantity : Int
  required_items : String
  required_quantities : String
  crafting_time : Int
  experience_gain : Int
deriving DecidableEq, Repr

/-- Model of pydantic `Recipe` (`app/models/recipe.py`). -/
structure Recipe where
  id : UUID
  name : String
  result_item_id : UUID
  result_quantity : Int
  required_items : String
  required_quantities : String
  crafting_time : Int
  experience_gain : Int
deriving DecidableEq, Repr

/-- Model of pydantic `RecipeWithDetails` (`app/models/recipe.py`): a Recipe
plus the resolved result item and required-item details. -/
structure RecipeWithDetails where
  id : UUID
  name : String
  result_item_id : UUID
  result_quantity : Int
  required_items : String
  required_quantities : String
  crafting_time : Int
  experience_gain : Int
  result_item : Option Item
  required_item_details : Option (List Item)
deriving DecidableEq, Repr

/-! ## Item repository (`app/repositories/item_repository.py`)

The in-memory `self.df` is modelled as a `List ItemRow`; one `ItemRow` is one
DataFrame row with the fixed column schema. Optional cells hold `none` where
the DataFrame holds `NaN`/`None` (`pd.isna` true). -/

/-- One row of the items DataFrame: the fixed column schema
`['id', 'name', 'description', 'type', 'rarity', 'price', 'stackable',
'max_stack', 'logo_prompt', 'logo_url']` with `id` stored as a string. -/
structure ItemRow where
  id : String
  name : String
  description : String
  type : String
  rarity : String
  price : Int
  stackable : Bool
  max_stack : Int
  logo_prompt : Option String
  logo_url : Option String
deriving DecidableEq, Repr

namespace ItemRepository

/-- Conversion of one DataFrame row to an `Item`, as done in `get_all`,
`get_by_id` and `get_by_ids`: `row_dict['id'] = UUID(str(row_dict['id']))`
and `pd.isna` normalisation of the optional `logo_prompt` / `logo_url`
cells (already `Option` in the model). -/
def rowToItem (r : ItemRow) : Item :=
  { id := ⟨r.id⟩, name := r.name, description := r.description,
    type := r.type, rarity := r.rarity, price := r.price,
    stackable := r.stackable, max_stack := r.max_stack,
    logo_prompt := r.logo_prompt, logo_url := r.logo_url }

/-- Row built from an `ItemCreate` dict plus a string id, as in
`new_item_dict = item.dict(); new_item_dict['id'] = str(new_id)`. -/
def rowFromCreate (sid : String) (x : ItemCreate) : ItemRow :=
  { id := sid, name := x.name, description := x.description,
    type := x.type, rarity := x.rarity, price := x.price,
    stackable := x.stackable, max_stack := x.max_stack,
    logo_prompt := x.logo_prompt, logo_url := x.logo_url }

/-- The `Item(**dict)` value returned by `create` and `update`: the
`ItemCreate` fields with the identifier attached. -/
def itemFromCreate (u : UUID) (x : ItemCreate) : Item :=
  { id := u, name := x.name, description := x.description,
    type := x.type, rarity := x.rarity, price := x.price,
    stackable := x.stackable, max_stack := x.max_stack,
    logo_prompt := x.logo_prompt, logo_url := x.logo_url }

/-- Model of `ItemRepository.get_all`. -/
def get_all (df : List ItemRow) : List Item :=
  df.map rowToItem

/-- Model of `ItemRepository.get_by_id`: filter the frame on
`df['id'] == str(item_id)`, return `None` when empty, else the first row
converted to an `Item` (`filtered.iloc[0]`). -/
def get_by_id (df : List ItemRow) (item_id : UUID) : Option Item :=
  (df.find? fun r => r.id == item_id.str).map rowToItem

/-- Model of `ItemRepository.get_by_ids`: membership filter
`df[df['id'].isin(str_ids)]` (frame order), rows converted to `Item`. -/
def get_by_ids (df : List ItemRow) (item_ids : List UUID) : List Item :=
  let str_ids := item_ids.map UUID.str
  (df.filter fun r => str_ids.contains r.id).map rowToItem

/-- Model of `ItemRepository.create`: the generated `uuid4()` is the
explicit argument `new_id`; one row is appended (`pd.concat`) and the
created entity is returned. The write-back to the local file
(`_save_data`) has no effect on the in-memory frame.  Result: the
returned `Item` and the new frame. -/
def create (df : List ItemRow) (new_id : UUID) (item : ItemCreate) :
    Item × List ItemRow :=
  (itemFromCreate new_id item, df ++ [rowFromCreate new_id.str item])

/-- Model of `ItemRepository.update`: return `None` and leave the frame
unchanged when `str_id` is not in the id column; otherwise assign the new
field values to every row matching the mask `df['id'] == str_id`
(column-aligned `pd.Series` assignment) and return the updated entity. -/
def update (df : List ItemRow) (item_id : UUID) (item : ItemCreate) :
    Option Item × List ItemRow :=
  if df.any fun r => r.id == item_id.str then
    (some (itemFromCreate item_id item),
     df.map fun r =>
       if r.id == item_id.str then rowFromCreate item_id.str item else r)
  else
    (none, df)

/-- Model of `ItemRepository.delete`: return `false` and leave the frame
unchanged when `str_id` is not in the id column; otherwise keep exactly the
rows with `df['id'] != str_id` and return `true`. -/
def delete (df : List ItemRow) (item_id : UUID) : Bool × List ItemRow :=
  if df.any fun r => r.id == item_id.str then
    (true, df.filter fun r => r.id != item_id.str)
  else
    (false, df)

end ItemRepository

example :
    ItemRepository.get_by_id [] ⟨"00000000-0000-0000-0000-000000000001"⟩ =
      none := by decide

example :
    (ItemRepository.create []
        ⟨"00000000-0000-0000-0000-000000000001"⟩
        { name := "Sword", description := "sharp", type := "weapon",
          rarity := "common", price := 10, stackable := false,
          max_stack := 1, logo_prompt := none, logo_url := none }).2.length
      = 1 := by decide

/-! ## Recipe repository (`app/repositories/recipe_repository.py`) -/

/-- One row of the recipes DataFrame: the fixed column schema
`['id', 'name', 'result_item_id', 'result_quantity', 'required_items',
'required_quantities', 'crafting_time', 'experience_gain']` with `id` and
`result_item_id` stored as strings. -/
structure RecipeRow where
  id : String
  name : String
  result_item_id : String
  result_quantity : Int
  required_items : String
  required_quantities : String
  crafting_time : Int
  experience_gain : Int
deriving DecidableEq, Repr

namespace RecipeRepository

/-- Conversion of one DataFrame row to a `Recipe`, as done in `get_all` and
`get_by_id`: the `id` and `result_item_id` cells are wrapped back into
identifiers. -/
def rowToRecipe (r : RecipeRow) : Recipe :=
  { id := ⟨r.id⟩, name := r.name, result_item_id := ⟨r.result_item_id⟩,
    result_quantity := r.result_quantity,
    required_items := r.required_items,
    required_quantities := r.required_quantities,
    crafting_time := r.crafting_time,
    experience_gain := r.experience_gain }

/-- Row built from a `RecipeCreate` dict plus a string id, as in
`new_recipe_dict['id'] = str(new_id);
new_recipe_dict['result_item_id'] = str(recipe.result_item_id)`. -/
def rowFromCreate (sid : String) (x : RecipeCreate) : RecipeRow :=
  { id := sid, name := x.name, result_item_id := x.result_item_id.str,
    result_quantity := x.result_quantity,
    required_items := x.required_items,
    required_quantities := x.required_quantities,
    crafting_time := x.crafting_time,
    experience_gain := x.experience_gain }

/-- The `Recipe(**dict)` value returned by `create` and `update`. -/
def recipeFromCreate (u : UUID) (x : RecipeCreate) : Recipe :=
  { id := u, name := x.name, result_item_id := x.result_item_id,
    result_quantity := x.result_quantity,
    required_items := x.required_items,
    required_quantities := x.required_quantities,
    crafting_time := x.crafting_time,
    experience_gain := x.experience_gain }

/-- Model of `RecipeRepository.get_all`. -/
def get_all (df : List RecipeRow) : List Recipe :=
  df.map rowToRecipe

/-- Model of `RecipeRepository.get_by_id`: filter on
`df['id'] == str(recipe_id)`, `None` when empty, else the first row. -/
def get_by_id (df : List RecipeRow) (recipe_id : UUID) : Option Recipe :=
  (df.find? fun r => r.id == recipe_id.str).map rowToRecipe

/-- Model of the list comprehension
`[UUID(x.strip()) for x in recipe.required_items.split(',')]`: splitting on
commas, stripping whitespace, parsing each entry as an identifier; the
first parse failure raises, modelled by `Except.error` carrying the
offending entry. -/
def parseRequiredItems (s : String) : Except String (List UUID) :=
  (pySplitComma s).mapM fun x =>
    match parseUUID (pyStrip x) with
    | some u => Except.ok u
    | none => Except.error (pyStrip x)

/-- Model of `RecipeRepository.get_by_id_with_details`: look the recipe up
(absent recipe is an ordinary `none`), resolve the result item and the
required items through the item repository state `item_df`, and compose the
detail view. An identifier parse failure in `required_items` escapes as
`Except.error`. -/
def get_by_id_with_details (df : List RecipeRow) (item_df : List ItemRow)
    (recipe_id : UUID) : Except String (Option RecipeWithDetails) :=
  match get_by_id df recipe_id with
  | none => Except.ok none
  | some recipe =>
    let result_item := ItemRepository.get_by_id item_df recipe.result_item_id
    match parseRequiredItems recipe.required_items with
    | Except.error e => Except.error e
    | Except.ok required_item_ids =>
      let required_items := ItemRepository.get_by_ids item_df required_item_ids
      Except.ok (some
        { id := recipe.id, name := recipe.name,
          result_item_id := recipe.result_item_id,
          result_quantity := recipe.result_quantity,
          required_items := recipe.required_items,
          required_quantities := recipe.required_quantities,
          crafting_time := recipe.crafting_time,
          experience_gain := recipe.experience_gain,
          result_item := result_item,
          required_item_details := some required_items })

/-- Model of `RecipeRepository.create` (generated `uuid4()` as the explicit
argument `new_id`): append one row, return the created entity. -/
def create (df : List RecipeRow) (new_id : UUID) (recipe : RecipeCreate) :
    Recipe × List RecipeRow :=
  (recipeFromCreate new_id recipe, df ++ [rowFromCreate new_id.str recipe])

/-- Model of `RecipeRepository.update`: `None` and unchanged frame when the
id is absent; otherwise assign the new field values to every row matching
`df['id'] == str_id` and return the updated entity. -/
def update (df : List RecipeRow) (recipe_id : UUID) (recipe : RecipeCreate) :
    Option Recipe × List RecipeRow :=
  if df.any fun r => r.id == recipe_id.str then
    (some (recipeFromCreate recipe_id recipe),
     df.map fun r =>
       if r.id == recipe_id.str then rowFromCreate recipe_id.str recipe else r)
  else
    (none, df)

/-- Model of `RecipeRepository.delete`: `false` and unchanged frame when the
id is absent; otherwise keep the rows with `df['id'] != str_id`. -/
def delete (df : List RecipeRow) (recipe_id : UUID) : Bool × List RecipeRow :=
  if df.any fun r => r.id == recipe_id.str then
    (true, df.filter fun r => r.id != recipe_id.str)
  else
    (false, df)

end RecipeRepository

/-! ## Remote sheet fetch (`app/services/google_sheets_service.py`)

The network and the CSV parser are external; they are modelled by an
explicit environment: `request` maps a URL to `none` (an exception was
raised during the request) or a response with a status code and a body, and
`parseCSV` maps a (trimmed) body to `none` (a parse failure, including
`pd.errors.EmptyDataError`) or a parsed table. -/

/-- Untyped tabular data as produced by `pd.read_csv`: a header (column
names) and rows of cells, a cell being `none` where pandas holds `NaN`. -/
structure Table where
  header : List String
  rows : List (List (Option String))
deriving DecidableEq, Repr

/-- Cell of a row at column index `j` (missing positions count as `NaN`). -/
def cellAt (row : List (Option String)) (j : Nat) : Option String :=
  (row.get? j).join

/-- Model of `df.dropna(how='all').dropna(axis=1, how='all')`: first drop
rows whose every cell is empty, then drop columns empty in every remaining
row. -/
def Table.cleanup (t : Table) : Table :=
  let rows1 := t.rows.filter fun r => r.any fun c => c.isSome
  let keep := (List.range t.header.length).filter fun j =>
    rows1.any fun r => (cellAt r j).isSome
  { header := keep.filterMap fun j => t.header.get? j,
    rows := rows1.map fun r => keep.map fun j => cellAt r j }

/-- Model of `df.empty or len(df.columns) == 0` (pandas `DataFrame.empty`
is true when either axis has length 0). -/
def Table.isDegenerate (t : Table) : Bool :=
  t.rows.isEmpty || t.header.isEmpty

/-- Response of one HTTP GET: status code and body text. -/
structure HTTPResponse where
  status : Nat
  body : String

/-- Environment under which the fetch service runs: the outcome of each GET
(`none` models an exception raised by `requests.get`) and the outcome of
CSV-parsing a trimmed body (`none` models a parsing exception). -/
structure Env where
  request : String → Option HTTPResponse
  parseCSV : String → Option Table

namespace GoogleSheetsService

/-- The fixed spreadsheet identifier from the service constructor. -/
def spreadsheet_id : String := "1RXXaxbOCtlsOdPDTOhL5R4Wjnrct1jBOaueNSj10Rys"

/-- The ordered `url_formats` list of `read_sheet_as_csv`. -/
def url_formats (sheet_name : String) : List String :=
  [ "https://docs.google.com/spreadsheets/d/" ++ spreadsheet_id ++
      "/export?format=csv&gid=0",
    "https://docs.google.com/spreadsheets/d/" ++ spreadsheet_id ++
      "/gviz/tq?tqx=out:csv&sheet=" ++ sheet_name,
    "https://docs.google.com/spreadsheets/d/" ++ spreadsheet_id ++
      "/pub?gid=0&single=true&output=csv" ]

/-- One iteration of the `read_sheet_as_csv` loop for one URL: reject
non-200 status, empty trimmed body, an HTML error page marker, a CSV parse
failure, and a cleaned table that is empty; otherwise produce the cleaned
table. Any request exception (`env.request` giving `none`) is caught and
rejects this URL only. -/
def tryURL (env : Env) (csv_url : String) : Option Table :=
  match env.request csv_url with
  | none => none
  | some response =>
    if response.status == 200 then
      let content := response.body.trim
      if content.isEmpty then none
      else if content.startsWith "<!DOCTYPE html>"
           || content.startsWith "<html" then none
      else
        match env.parseCSV content with
        | none => none
        | some df =>
          let cleaned := df.cleanup
          if cleaned.isDegenerate then none else some cleaned
    else none

/-- Model of `GoogleSheetsService.read_sheet_as_csv`: try the URL formats in
order, returning the first accepted table, `none` when all fail. -/
def read_sheet_as_csv (env : Env) (sheet_name : String) : Option Table :=
  (url_formats sheet_name).findSome? (tryURL env)

/-- The static `alternative_names` table of `get_sheet_data`. -/
def alternative_names (sheet_name : String) : List String :=
  if sheet_name == "Items" then ["ItemsRecipies", "Sheet1"]
  else if sheet_name == "Recipes" then ["ItemsRecipies", "Sheet2"]
  else []

/-- The guard `df is not None and not df.empty` applied to the result of
`read_sheet_as_csv`. -/
def acceptedTable : Option Table → Option Table
  | some df => if df.isDegenerate then none else some df
  | none => none

/-- Model of `GoogleSheetsService.get_sheet_data`: use the result of
`read_sheet_as_csv` when it is a non-empty table; otherwise try each
alternative sheet name the same way; `none` when nothing succeeds. -/
def get_sheet_data (env : Env) (sheet_name : String) : Option Table :=
  match acceptedTable (read_sheet_as_csv env sheet_name) with
  | some df => some df
  | none =>
    (alternative_names sheet_name).findSome? fun alt_name =>
      acceptedTable (read_sheet_as_csv env alt_name)

/-- Model of `GoogleSheetsService.get_items_data`. -/
def get_items_data (env : Env) : Option Table :=
  get_sheet_data env "Items"

/-- Model of `GoogleSheetsService.get_recipes_data`. -/
def get_recipes_data (env : Env) : Option Table :=
  get_sheet_data env "Recipes"

end GoogleSheetsService

/-! ## Source resolution (`_load_data` in both repositories)

`_load_data` decides the initial in-memory table: the remote fetch result
when it is a non-empty table, else the local tabular file, else an empty
table with the fixed column schema. The remote outcome is
`Option (Option Table)`: the outer `none` models an exception raised inside
the `try` block (caught by the source), the inner value is the
`get_items_data` / `get_recipes_data` return. The local file is
`Option Table`: `none` models `FileNotFoundError` from `pd.read_excel`. -/

/-- The fixed items column schema used for the empty DataFrame. -/
def item_columns : List String :=
  ["id", "name", "description", "type", "rarity", "price", "stackable",
   "max_stack", "logo_prompt", "logo_url"]

/-- The fixed recipes column schema used for the empty DataFrame. -/
def recipe_columns : List String :=
  ["id", "name", "result_item_id", "result_quantity", "required_items",
   "required_quantities", "crafting_time", "experience_gain"]

/-- The local-file fallback branch shared by both `_load_data` bodies: read
the configured local file; on `FileNotFoundError` build an empty DataFrame
with the fixed column schema. -/
def localFallback (cols : List String) (local_file : Option Table) : Table :=
  match local_file with
  | some df => df
  | none => { header := cols, rows := [] }

/-- Model of `_load_data` (same shape in `ItemRepository` and
`RecipeRepository`, differing only in the column schema): with remote
fetching enabled, use the remote table when the fetch neither raised nor
returned `None` nor an empty table, and fall back to the local file (or the
empty schema) otherwise. -/
def repoLoadData (cols : List String) (use_google_sheets : Bool)
    (remote : Option (Option Table)) (local_file : Option Table) : Table :=
  if use_google_sheets then
    match remote with
    | some (some df) =>
      if df.isDegenerate then localFallback cols local_file else df
    | some none => localFallback cols local_file
    | none => localFallback cols local_file
  else localFallback cols local_file

/-- `ItemRepository._load_data` instantiated with the items schema. -/
def ItemRepository.load_data (use_google_sheets : Bool)
    (remote : Option (Option Table)) (local_file : Option Table) : Table :=
  repoLoadData item_columns use_google_sheets remote local_file

/-- `RecipeRepository._load_data` instantiated with the recipes schema. -/
def RecipeRepository.load_data (use_google_sheets : Bool)
    (remote : Option (Option Table)) (local_file : Option Table) : Table :=
  repoLoadData recipe_columns use_google_sheets remote local_file

/-! ## Router wiring (`app/routers/items.py`, `app/routers/recipes.py`)

At import time `items.py` constructs `item_repo = ItemRepository(...)` and
`recipes.py` constructs its own `item_repo = ItemRepository(...)` together
with `recipe_repo = RecipeRepository(item_repo=item_repo, ...)`: the
process holds two distinct `ItemRepository` instances plus one
`RecipeRepository` whose `self.item_repo` aliases the instance of
`recipes.py`. `AppState` records the mutable frames of the three
repository objects. -/

/-- Mutable in-memory repository state of the whole process: the items
frame of `items.py`'s `item_repo`, the items frame of `recipes.py`'s
`item_repo` (aliased by `recipe_repo.item_repo`), and the recipes frame of
`recipes.py`'s `recipe_repo`. -/
structure AppState where
  items_item_repo : List ItemRow
  recipes_item_repo : List ItemRow
  recipes_recipe_repo : List RecipeRow
deriving DecidableEq, Repr

/-- Validation performed by the `create_recipe` / `update_recipe` handlers
in `recipes.py` against that module's `item_repo`: the result item must
exist and every parsed required item must exist. A parse failure of
`required_items` aborts the request (modelled as validation not passing —
the repository is not reached either way). -/
def recipeHandlerValidation (item_df : List ItemRow) (recipe : RecipeCreate) :
    Bool :=
  (ItemRepository.get_by_id item_df recipe.result_item_id).isSome &&
    match RecipeRepository.parseRequiredItems recipe.required_items with
    | Except.error _ => false
    | Except.ok ids =>
      ids.all fun i => (ItemRepository.get_by_id item_df i).isSome

/-- Successor state of the `POST /items` handler (`items.py`), which calls
`item_repo.create` on the items-router repository only. -/
def stepCreateItem (s : AppState) (new_id : UUID) (x : ItemCreate) :
    AppState :=
  { s with items_item_repo := (ItemRepository.create s.items_item_repo new_id x).2 }

/-- Successor state of the `PUT /items/{id}` handler. -/
def stepUpdateItem (s : AppState) (item_id : UUID) (x : ItemCreate) :
    AppState :=
  { s with items_item_repo := (ItemRepository.update s.items_item_repo item_id x).2 }

/-- Successor state of the `DELETE /items/{id}` handler. -/
def stepDeleteItem (s : AppState) (item_id : UUID) : AppState :=
  { s with items_item_repo := (ItemRepository.delete s.items_item_repo item_id).2 }

/-- Successor state of the `POST /recipes` handler (validation already
passed). -/
def stepCreateRecipe (s : AppState) (new_id : UUID) (x : RecipeCreate) :
    AppState :=
  { s with recipes_recipe_repo :=
      (RecipeRepository.create s.recipes_recipe_repo new_id x).2 }

/-- Successor state of the `PUT /recipes/{id}` handler (validation already
passed). -/
def stepUpdateRecipe (s : AppState) (recipe_id : UUID) (x : RecipeCreate) :
    AppState :=
  { s with recipes_recipe_repo :=
      (RecipeRepository.update s.recipes_recipe_repo recipe_id x).2 }

/-- Successor state of the `DELETE /recipes/{id}` handler. -/
def stepDeleteRecipe (s : AppState) (recipe_id : UUID) : AppState :=
  { s with recipes_recipe_repo :=
      (RecipeRepository.delete s.recipes_recipe_repo recipe_id).2 }

/-- One state-changing request handled by the service: the mutating
endpoints of `items.py` act on `items_item_repo`; the mutating endpoints of
`recipes.py` act on `recipes_recipe_repo` after validating against
`recipes_item_repo`. Read-only endpoints do not change the state. -/
inductive Step : AppState → AppState → Prop
  | createItem (s : AppState) (new_id : UUID) (x : ItemCreate) :
      Step s (stepCreateItem s new_id x)
  | updateItem (s : AppState) (item_id : UUID) (x : ItemCreate) :
      Step s (stepUpdateItem s item_id x)
  | deleteItem (s : AppState) (item_id : UUID) :
      Step s (stepDeleteItem s item_id)
  | createRecipe (s : AppState) (new_id : UUID) (x : RecipeCreate)
      (hval : recipeHandlerValidation s.recipes_item_repo x = true) :
      Step s (stepCreateRecipe s new_id x)
  | updateRecipe (s : AppState) (recipe_id : UUID) (x : RecipeCreate)
      (hval : recipeHandlerValidation s.recipes_item_repo x = true) :
      Step s (stepUpdateRecipe s recipe_id x)
  | deleteRecipe (s : AppState) (recipe_id : UUID) :
      Step s (stepDeleteRecipe s recipe_id)

/-- Startup condition: both `ItemRepository` constructions run the same
source resolution against the same environment, so the two item frames
start out equal. -/
def InitialAppState (s : AppState) : Prop :=
  s.items_item_repo = s.recipes_item_repo

/-- Reachability of a service state from a startup state through handled
requests. -/
def ReachableFrom (s0 s : AppState) : Prop :=
  Relation.ReflTransGen Step s0 s

/-! ## Generic list lemmas shared by the claim proofs -/

/-- Rows whose key misses `sid` are untouched by the masked assignment. -/
theorem map_replace_of_forall_ne {α : Type} (key : α → String) (sid : String)
    (repl : α) (l : List α) (h : ∀ r ∈ l, key r ≠ sid) :
    (l.map fun r => if key r == sid then repl else r) = l := by
  induction l with
  | nil => rfl
  | cons a t ih =>
    have ha : key a ≠ sid := h a (List.mem_cons_self a t)
    have ht := ih fun r hr => h r (List.mem_cons_of_mem a hr)
    simp only [List.map_cons]
    rw [if_neg (by simp [ha]), ht]

/-- The masked assignment keeps the key column unchanged when the
replacement row carries the same key. -/
theorem map_key_after_replace {α : Type} (key : α → String) (sid : String)
    (repl : α) (hrepl : key repl = sid) (l : List α) :
    (l.map fun r => if key r == sid then repl else r).map key = l.map key := by
  induction l with
  | nil => rfl
  | cons a t ih =>
    by_cases ha : key a = sid
    · simp only [List.map_cons]
      rw [if_pos (by simp [ha]), hrepl, ha, ih]
    · simp only [List.map_cons]
      rw [if_neg (by simp [ha]), ih]

/-- Membership of a key in the key column, phrased through the boolean
`any` scan that the repository operations use. -/
theorem any_key_iff_mem {α : Type} (key : α → String) (sid : String)
    (l : List α) :
    (l.any fun r => key r == sid) = true ↔ sid ∈ l.map key := by
  simp only [List.any_eq_true, beq_iff_eq, List.mem_map]

/-- Decomposition of a list at the first row carrying the key `sid`. -/
theorem exists_key_decomp {α : Type} (key : α → String) (sid : String)
    (l : List α) (h : sid ∈ l.map key) :
    ∃ l₁ r l₂, l = l₁ ++ r :: l₂ ∧ key r = sid ∧ ∀ x ∈ l₁, key x ≠ sid := by
  induction l with
  | nil => simp at h
  | cons a t ih =>
    by_cases ha : key a = sid
    · exact ⟨[], a, t, by simp, ha, by simp⟩
    · have ht : sid ∈ t.map key := by
        rcases List.mem_map.mp h with ⟨x, hx, hkx⟩
        rcases List.mem_cons.mp hx with rfl | hxt
        · exact absurd hkx ha
        · exact List.mem_map.mpr ⟨x, hxt, hkx⟩
      rcases ih ht with ⟨l₁, r, l₂, hl, hr, hfst⟩
      refine ⟨a :: l₁, r, l₂, by simp [hl], hr, ?_⟩
      intro x hx
      rcases List.mem_cons.mp hx with rfl | hxl
      · exact ha
      · exact hfst x hxl

/-- Under a duplicate-free key column, no row after the decomposition
point carries the key. -/
theorem decomp_tail_ne {α : Type} (key : α → String) (sid : String)
    (l₁ l₂ : List α) (r : α) (hr : key r = sid)
    (hnd : ((l₁ ++ r :: l₂).map key).Nodup) :
    ∀ x ∈ l₂, key x ≠ sid := by
  intro x hx hkx
  have hsub : ((r :: l₂).map key).Sublist ((l₁ ++ r :: l₂).map key) :=
    (List.sublist_append_right l₁ (r :: l₂)).map key
  have hnd2 : ((r :: l₂).map key).Nodup := List.Nodup.sublist hsub hnd
  simp only [List.map_cons, List.nodup_cons] at hnd2
  exact hnd2.1 (by rw [hr, ← hkx]; exact List.mem_map_of_mem key hx)

/-! ## Claim C2 -/

/-- Fetch procedure as worded by the specification: try the 3 URL
strategies in order with the per-URL acceptance checks, returning the first
surviving table; when all 3 fail, try each name of the static
alternate-name list with the same per-URL procedure; absent when nothing
succeeds. -/
def fetchSpecification (env : Env) (logical_name : String) : Option Table :=
  match (GoogleSheetsService.url_formats logical_name).findSome?
      (GoogleSheetsService.tryURL env) with
  | some t => some t
  | none =>
    (GoogleSheetsService.alternative_names logical_name).findSome?
      fun alt_name =>
        (GoogleSheetsService.url_formats alt_name).findSome?
          (GoogleSheetsService.tryURL env)

/-- A table accepted by the per-URL checks is never empty after cleanup. -/
theorem tryURL_not_degenerate (env : Env) (url : String) (t : Table)
    (h : GoogleSheetsService.tryURL env url = some t) :
    t.isDegenerate = false := by
  unfold GoogleSheetsService.tryURL at h
  rcases henv : env.request url with _ | response
  · rw [henv] at h; exact absurd h (by simp)
  · rw [henv] at h
    simp only at h
    split at h
    · split at h
      · exact absurd h (by simp)
      · split at h
        · exact absurd h (by simp)
        · rcases hcsv : env.parseCSV (response.body.trim) with _ | df
          · rw [hcsv] at h; exact absurd h (by simp)
          · rw [hcsv] at h
            simp only at h
            split at h
            · exact absurd h (by simp)
            · rename_i hdeg
              cases h
              simpa using hdeg
    · exact absurd h (by simp)

/-- The `df is not None and not df.empty` guard of `get_sheet_data` never
rejects a table produced by `read_sheet_as_csv`. -/
theorem acceptedTable_read_sheet (env : Env) (sheet_name : String) :
    GoogleSheetsService.acceptedTable
        (GoogleSheetsService.read_sheet_as_csv env sheet_name) =
      GoogleSheetsService.read_sheet_as_csv env sheet_name := by
  rcases hread : GoogleSheetsService.read_sheet_as_csv env sheet_name
    with _ | t
  · rfl
  · rcases List.exists_of_findSome?_eq_some hread with ⟨url, _, hurl⟩
    simp [GoogleSheetsService.acceptedTable,
      tryURL_not_degenerate env url t hurl]

/-- C2: for every logical table name (and every network/parse environment),
`get_sheet_data` tries the 3 URL strategies in order with the documented
per-URL rejection checks, returns the first surviving table, falls back to
the static alternate-name list with the same per-URL procedure when all 3
URL strategies fail, and returns absent when nothing succeeds — it equals
the fetch procedure as worded by the specification. -/
theorem get_sheet_data_matches_specification (env : Env)
    (logical_name : String) :
    GoogleSheetsService.get_sheet_data env logical_name =
      fetchSpecification env logical_name := by
  rcases hread : GoogleSheetsService.read_sheet_as_csv env logical_name
    with _ | t
  · unfold GoogleSheetsService.get_sheet_data fetchSpecification
    rw [acceptedTable_read_sheet, hread,
      show (GoogleSheetsService.url_formats logical_name).findSome?
          (GoogleSheetsService.tryURL env) = none from hread]
    simp only
    congr 1
    funext alt_name
    rw [acceptedTable_read_sheet]
    rfl
  · unfold GoogleSheetsService.get_sheet_data fetchSpecification
    rw [acceptedTable_read_sheet, hread,
      show (GoogleSheetsService.url_formats logical_name).findSome?
          (GoogleSheetsService.tryURL env) = some t from hread]

/-! ## Claim C3 -/

/-- Failed-or-empty remote fetch during repository construction: the fetch
raised (outer `none`), returned `None` (inner `none`), or returned an
empty table. -/
def remoteFailedOrEmpty (remote : Option (Option Table)) : Prop :=
  remote = none ∨ remote = some none ∨
    ∃ df, remote = some (some df) ∧ df.isDegenerate = true

/-- C3: when the remote fetch fails entirely or returns an empty table,
both repositories resolve their source to the configured local tabular
file, and to the empty table with the fixed column schema when that file is
absent; `load_data` is a total function of the two outcomes, so no
source-resolution failure reaches the caller of the constructor. -/
theorem load_data_falls_back_locally (remote : Option (Option Table))
    (local_file : Option Table) (h : remoteFailedOrEmpty remote) :
    ItemRepository.load_data true remote local_file =
        localFallback item_columns local_file
      ∧ RecipeRepository.load_data true remote local_file =
        localFallback recipe_columns local_file
      ∧ localFallback item_columns none =
        { header := item_columns, rows := [] }
      ∧ localFallback recipe_columns none =
        { header := recipe_columns, rows := [] } := by
  refine ⟨?_, ?_, rfl, rfl⟩ <;>
  · rcases h with rfl | rfl | ⟨df, rfl, hdeg⟩
    · simp [ItemRepository.load_data, RecipeRepository.load_data, repoLoadData]
    · simp [ItemRepository.load_data, RecipeRepository.load_data, repoLoadData]
    · simp [ItemRepository.load_data, RecipeRepository.load_data,
        repoLoadData, hdeg]

/-- Witness for C3 at a concrete failed fetch and absent local file. -/
theorem load_data_falls_back_locally_witness :
    ItemRepository.load_data true none none =
        { header := item_columns, rows := [] }
      ∧ RecipeRepository.load_data true none none =
        { header := recipe_columns, rows := [] } :=
  ⟨(load_data_falls_back_locally none none (Or.inl rfl)).1,
   (load_data_falls_back_locally none none (Or.inl rfl)).2.1⟩

/-! ## Claim C4 -/

/-- The id column of an items frame. -/
def itemIds (df : List ItemRow) : List String :=
  df.map fun r => r.id

/-- The id column of a recipes frame. -/
def recipeIds (df : List RecipeRow) : List String :=
  df.map fun r => r.id

/-- C4: over repository states with pairwise-distinct identifiers (and with
`uuid4` modelled as a generated identifier `u` not already present, its
documented contract), `create` returns an entity whose identifier was
absent from the table before the creation, and `create`, `update` and
`delete` each preserve identifier uniqueness — in both repositories. -/
theorem crud_preserves_unique_ids
    (idf : List ItemRow) (rdf : List RecipeRow)
    (u v : UUID) (x : ItemCreate) (y : RecipeCreate) (iid rid : UUID)
    (hndI : (itemIds idf).Nodup) (hndR : (recipeIds rdf).Nodup)
    (hfreshI : u.str ∉ itemIds idf) (hfreshR : v.str ∉ recipeIds rdf) :
    ((ItemRepository.create idf u x).1.id.str ∉ itemIds idf
      ∧ (itemIds (ItemRepository.create idf u x).2).Nodup
      ∧ (itemIds (ItemRepository.update idf iid x).2).Nodup
      ∧ (itemIds (ItemRepository.delete idf iid).2).Nodup)
    ∧ ((RecipeRepository.create rdf v y).1.id.str ∉ recipeIds rdf
      ∧ (recipeIds (RecipeRepository.create rdf v y).2).Nodup
      ∧ (recipeIds (RecipeRepository.update rdf rid y).2).Nodup
      ∧ (recipeIds (RecipeRepository.delete rdf rid).2).Nodup) := by
  constructor
  · refine ⟨hfreshI, ?_, ?_, ?_⟩
    · simp only [ItemRepository.create, itemIds, List.map_append]
      rw [List.nodup_append]
      exact ⟨hndI, by simp, by
        intro a ha hb
        simp only [ItemRepository.rowFromCreate, List.map_cons, List.map_nil,
          List.mem_singleton] at hb
        exact hfreshI (hb ▸ ha)⟩
    · unfold ItemRepository.update
      split
      · show ((idf.map fun r =>
            if r.id == iid.str then ItemRepository.rowFromCreate iid.str x
            else r).map fun r => r.id).Nodup
        rw [map_key_after_replace (fun r : ItemRow => r.id) iid.str
          (ItemRepository.rowFromCreate iid.str x) rfl idf]
        exact hndI
      · exact hndI
    · unfold ItemRepository.delete
      split
      · show ((idf.filter fun r => r.id != iid.str).map fun r => r.id).Nodup
        exact List.Nodup.sublist
          ((List.filter_sublist idf).map fun r : ItemRow => r.id) hndI
      · exact hndI
  · refine ⟨hfreshR, ?_, ?_, ?_⟩
    · simp only [RecipeRepository.create, recipeIds, List.map_append]
      rw [List.nodup_append]
      exact ⟨hndR, by simp, by
        intro a ha hb
        simp only [RecipeRepository.rowFromCreate, List.map_cons, List.map_nil,
          List.mem_singleton] at hb
        exact hfreshR (hb ▸ ha)⟩
    · unfold RecipeRepository.update
      split
      · show ((rdf.map fun r =>
            if r.id == rid.str then RecipeRepository.rowFromCreate rid.str y
            else r).map fun r => r.id).Nodup
        rw [map_key_after_replace (fun r : RecipeRow => r.id) rid.str
          (RecipeRepository.rowFromCreate rid.str y) rfl rdf]
        exact hndR
      · exact hndR
    · unfold RecipeRepository.delete
      split
      · show ((rdf.filter fun r => r.id != rid.str).map fun r => r.id).Nodup
        exact List.Nodup.sublist
          ((List.filter_sublist rdf).map fun r : RecipeRow => r.id) hndR
      · exact hndR

/-- Concrete sample item payload used by witnesses. -/
def sampleItemCreate : ItemCreate :=
  { name := "Sword", description := "sharp", type := "weapon",
    rarity := "common", price := 10, stackable := false, max_stack := 1,
    logo_prompt := none, logo_url := none }

/-- Concrete sample recipe payload used by witnesses. -/
def sampleRecipeCreate : RecipeCreate :=
  { name := "Iron Sword", result_item_id := ⟨"00000000-0000-0000-0000-0000000000aa"⟩,
    result_quantity := 1,
    required_items := "00000000-0000-0000-0000-0000000000aa",
    required_quantities := "2", crafting_time := 5, experience_gain := 7 }

/-- Concrete identifiers used by witnesses. -/
def uuidA : UUID := ⟨"00000000-0000-0000-0000-0000000000aa"⟩

/-- Second concrete identifier used by witnesses. -/
def uuidB : UUID := ⟨"00000000-0000-0000-0000-0000000000bb"⟩

/-- One-row concrete items frame used by witnesses. -/
def sampleItemFrame : List ItemRow :=
  [ItemRepository.rowFromCreate uuidA.str sampleItemCreate]

/-- One-row concrete recipes frame used by witnesses. -/
def sampleRecipeFrame : List RecipeRow :=
  [RecipeRepository.rowFromCreate uuidA.str sampleRecipeCreate]

/-- Witness for C4 on concrete one-row frames and a fresh identifier. -/
theorem crud_preserves_unique_ids_witness :
    (ItemRepository.create sampleItemFrame uuidB sampleItemCreate).1.id.str
        ∉ itemIds sampleItemFrame
      ∧ (itemIds (ItemRepository.create sampleItemFrame uuidB
          sampleItemCreate).2).Nodup
      ∧ (recipeIds (RecipeRepository.create sampleRecipeFrame uuidB
          sampleRecipeCreate).2).Nodup
      ∧ (itemIds (ItemRepository.delete sampleItemFrame uuidA).2).Nodup :=
  ⟨(crud_preserves_unique_ids sampleItemFrame sampleRecipeFrame uuidB uuidB
      sampleItemCreate sampleRecipeCreate uuidA uuidA (by decide) (by decide)
      (by decide) (by decide)).1.1,
   (crud_preserves_unique_ids sampleItemFrame sampleRecipeFrame uuidB uuidB
      sampleItemCreate sampleRecipeCreate uuidA uuidA (by decide) (by decide)
      (by decide) (by decide)).1.2.1,
   (crud_preserves_unique_ids sampleItemFrame sampleRecipeFrame uuidB uuidB
      sampleItemCreate sampleRecipeCreate uuidA uuidA (by decide) (by decide)
      (by decide) (by decide)).2.2.1,
   (crud_preserves_unique_ids sampleItemFrame sampleRecipeFrame uuidB uuidB
      sampleItemCreate sampleRecipeCreate uuidA uuidA (by decide) (by decide)
      (by decide) (by decide)).1.2.2.2⟩

/-! ## Claim C5 -/

/-- Shared helper: looking up the identifier assigned by `create` in the
frame `create` produced finds the appended row, provided the generated
identifier was fresh. -/
theorem get_by_id_after_create (df : List ItemRow) (u : UUID)
    (x : ItemCreate) (hfresh : u.str ∉ itemIds df) :
    ItemRepository.get_by_id (ItemRepository.create df u x).2 u =
      some (ItemRepository.itemFromCreate u x) := by
  have hnone : df.find? (fun r => r.id == u.str) = none := by
    rw [List.find?_eq_none]
    intro r hr hbeq
    have hid : r.id = u.str := by simpa using hbeq
    have hmem : r.id ∈ df.map fun r => r.id :=
      List.mem_map_of_mem (fun r => r.id) hr
    rw [hid] at hmem
    exact hfresh hmem
  show ItemRepository.get_by_id
      (df ++ [ItemRepository.rowFromCreate u.str x]) u = _
  unfold ItemRepository.get_by_id
  rw [List.find?_append, hnone]
  simp [ItemRepository.rowFromCreate, ItemRepository.rowToItem,
    ItemRepository.itemFromCreate, UUID.str]

/-- C5: with `uuid4` producing an identifier `u` not already present,
`get_by_id` applied to the identifier returned by `create x` returns the
entity whose fields are exactly those of `x` with the assigned identifier
attached; the optional `logo_prompt` / `logo_url` fields come back exactly
as given in `x` (absent stays absent, never an empty string). -/
theorem create_get_by_id_round_trip (df : List ItemRow) (u : UUID)
    (x : ItemCreate) (hfresh : u.str ∉ itemIds df) :
    ItemRepository.get_by_id (ItemRepository.create df u x).2
        (ItemRepository.create df u x).1.id =
      some { id := u, name := x.name, description := x.description,
             type := x.type, rarity := x.rarity, price := x.price,
             stackable := x.stackable, max_stack := x.max_stack,
             logo_prompt := x.logo_prompt, logo_url := x.logo_url } :=
  get_by_id_after_create df u x hfresh

/-- Witness for C5 on a concrete one-row frame and a fresh identifier. -/
theorem create_get_by_id_round_trip_witness :
    ItemRepository.get_by_id
        (ItemRepository.create sampleItemFrame uuidB sampleItemCreate).2
        (ItemRepository.create sampleItemFrame uuidB sampleItemCreate).1.id =
      some { id := uuidB, name := sampleItemCreate.name,
             description := sampleItemCreate.description,
             type := sampleItemCreate.type, rarity := sampleItemCreate.rarity,
             price := sampleItemCreate.price,
             stackable := sampleItemCreate.stackable,
             max_stack := sampleItemCreate.max_stack,
             logo_prompt := sampleItemCreate.logo_prompt,
             logo_url := sampleItemCreate.logo_url } :=
  create_get_by_id_round_trip sampleItemFrame uuidB sampleItemCreate
    (by decide)

/-! ## Claim C6 -/

/-- C6: in both repositories, `update` on an id absent from the table
returns absent and leaves the table unchanged; on a present id (under the
unique-id invariant) it replaces exactly the row carrying that id by the
row built from the new fields with the identifier preserved, leaves every
other row in place, and returns the updated entity. -/
theorem update_absent_none_present_replaces
    (idf : List ItemRow) (rdf : List RecipeRow) (iid rid : UUID)
    (x : ItemCreate) (y : RecipeCreate)
    (hndI : (itemIds idf).Nodup) (hndR : (recipeIds rdf).Nodup) :
    (iid.str ∉ itemIds idf →
      ItemRepository.update idf iid x = (none, idf))
    ∧ (iid.str ∈ itemIds idf →
      ∃ l₁ r l₂, idf = l₁ ++ r :: l₂ ∧ r.id = iid.str ∧
        ItemRepository.update idf iid x =
          (some (ItemRepository.itemFromCreate iid x),
           l₁ ++ ItemRepository.rowFromCreate iid.str x :: l₂))
    ∧ (rid.str ∉ recipeIds rdf →
      RecipeRepository.update rdf rid y = (none, rdf))
    ∧ (rid.str ∈ recipeIds rdf →
      ∃ l₁ r l₂, rdf = l₁ ++ r :: l₂ ∧ r.id = rid.str ∧
        RecipeRepository.update rdf rid y =
          (some (RecipeRepository.recipeFromCreate rid y),
           l₁ ++ RecipeRepository.rowFromCreate rid.str y :: l₂)) := by
  refine ⟨?_, ?_, ?_, ?_⟩
  · intro h
    have hc : ¬((idf.any fun r => r.id == iid.str) = true) := by
      rw [any_key_iff_mem]; exact h
    unfold ItemRepository.update
    rw [if_neg hc]
  · intro h
    obtain ⟨l₁, r, l₂, hidf, hr, hfst⟩ :=
      exists_key_decomp (fun r : ItemRow => r.id) iid.str idf h
    refine ⟨l₁, r, l₂, hidf, hr, ?_⟩
    have hc : (idf.any fun r => r.id == iid.str) = true :=
      (any_key_iff_mem (fun r : ItemRow => r.id) iid.str idf).mpr h
    unfold ItemRepository.update
    rw [if_pos hc]
    subst hidf
    rw [List.map_append, List.map_cons,
      map_replace_of_forall_ne (fun r : ItemRow => r.id) iid.str
        (ItemRepository.rowFromCreate iid.str x) l₁ hfst,
      map_replace_of_forall_ne (fun r : ItemRow => r.id) iid.str
        (ItemRepository.rowFromCreate iid.str x) l₂
        (decomp_tail_ne (fun r : ItemRow => r.id) iid.str l₁ l₂ r hr hndI),
      if_pos (show (r.id == iid.str) = true by simp [hr])]
  · intro h
    have hc : ¬((rdf.any fun r => r.id == rid.str) = true) := by
      rw [any_key_iff_mem]; exact h
    unfold RecipeRepository.update
    rw [if_neg hc]
  · intro h
    obtain ⟨l₁, r, l₂, hrdf, hr, hfst⟩ :=
      exists_key_decomp (fun r : RecipeRow => r.id) rid.str rdf h
    refine ⟨l₁, r, l₂, hrdf, hr, ?_⟩
    have hc : (rdf.any fun r => r.id == rid.str) = true :=
      (any_key_iff_mem (fun r : RecipeRow => r.id) rid.str rdf).mpr h
    unfold RecipeRepository.update
    rw [if_pos hc]
    subst hrdf
    rw [List.map_append, List.map_cons,
      map_replace_of_forall_ne (fun r : RecipeRow => r.id) rid.str
        (RecipeRepository.rowFromCreate rid.str y) l₁ hfst,
      map_replace_of_forall_ne (fun r : RecipeRow => r.id) rid.str
        (RecipeRepository.rowFromCreate rid.str y) l₂
        (decomp_tail_ne (fun r : RecipeRow => r.id) rid.str l₁ l₂ r hr hndR),
      if_pos (show (r.id == rid.str) = true by simp [hr])]

/-- Witness for C6: update of the present id on the concrete one-row
frames replaces the row; the fresh id comes back absent. -/
theorem update_absent_none_present_replaces_witness :
    ItemRepository.update sampleItemFrame uuidB sampleItemCreate =
        (none, sampleItemFrame)
      ∧ ∃ l₁ r l₂, sampleRecipeFrame = l₁ ++ r :: l₂ ∧ r.id = uuidA.str ∧
          RecipeRepository.update sampleRecipeFrame uuidA sampleRecipeCreate =
            (some (RecipeRepository.recipeFromCreate uuidA sampleRecipeCreate),
             l₁ ++ RecipeRepository.rowFromCreate uuidA.str sampleRecipeCreate
               :: l₂) :=
  ⟨(update_absent_none_present_replaces sampleItemFrame sampleRecipeFrame
      uuidB uuidA sampleItemCreate sampleRecipeCreate (by decide)
      (by decide)).1 (by decide),
   (update_absent_none_present_replaces sampleItemFrame sampleRecipeFrame
      uuidB uuidA sampleItemCreate sampleRecipeCreate (by decide)
      (by decide)).2.2.2 (by decide)⟩

/-! ## Claim C7 -/

/-- C7: in both repositories, `delete` on an absent id returns `false` and
leaves the table unchanged; on a present id (under the unique-id invariant)
it removes exactly the row carrying that id and returns `true`; and in
every case a subsequent `get_by_id` of the deleted id returns absent. -/
theorem delete_removes_row_and_lookup_absent
    (idf : List ItemRow) (rdf : List RecipeRow) (iid rid : UUID)
    (hndI : (itemIds idf).Nodup) (hndR : (recipeIds rdf).Nodup) :
    (iid.str ∉ itemIds idf → ItemRepository.delete idf iid = (false, idf))
    ∧ (iid.str ∈ itemIds idf →
      (ItemRepository.delete idf iid).1 = true ∧
        ∃ l₁ r l₂, idf = l₁ ++ r :: l₂ ∧ r.id = iid.str ∧
          (ItemRepository.delete idf iid).2 = l₁ ++ l₂)
    ∧ ItemRepository.get_by_id (ItemRepository.delete idf iid).2 iid = none
    ∧ (rid.str ∉ recipeIds rdf →
      RecipeRepository.delete rdf rid = (false, rdf))
    ∧ (rid.str ∈ recipeIds rdf →
      (RecipeRepository.delete rdf rid).1 = true ∧
        ∃ l₁ r l₂, rdf = l₁ ++ r :: l₂ ∧ r.id = rid.str ∧
          (RecipeRepository.delete rdf rid).2 = l₁ ++ l₂)
    ∧ RecipeRepository.get_by_id (RecipeRepository.delete rdf rid).2 rid =
        none := by
  refine ⟨?_, ?_, ?_, ?_, ?_, ?_⟩
  · intro h
    have hc : ¬((idf.any fun r => r.id == iid.str) = true) := by
      rw [any_key_iff_mem]; exact h
    unfold ItemRepository.delete
    rw [if_neg hc]
  · intro h
    have hc : (idf.any fun r => r.id == iid.str) = true :=
      (any_key_iff_mem (fun r : ItemRow => r.id) iid.str idf).mpr h
    obtain ⟨l₁, r, l₂, hidf, hr, hfst⟩ :=
      exists_key_decomp (fun r : ItemRow => r.id) iid.str idf h
    have htail := decomp_tail_ne (fun r : ItemRow => r.id) iid.str l₁ l₂ r hr
      (hidf ▸ hndI)
    refine ⟨by unfold ItemRepository.delete; rw [if_pos hc],
      l₁, r, l₂, hidf, hr, ?_⟩
    unfold ItemRepository.delete
    rw [if_pos hc]
    subst hidf
    rw [List.filter_append, List.filter_cons,
      List.filter_eq_self.mpr (fun a ha => by simp [hfst a ha]),
      List.filter_eq_self.mpr (fun a ha => by simp [htail a ha]),
      if_neg (by simp [hr])]
  · unfold ItemRepository.delete
    split
    · unfold ItemRepository.get_by_id
      rw [List.find?_eq_none.mpr]
      · rfl
      · intro r hrmem
        have := (List.mem_filter.mp hrmem).2
        simp only [bne_iff_ne, ne_eq] at this
        simp [this]
    · rename_i hc
      unfold ItemRepository.get_by_id
      rw [List.find?_eq_none.mpr]
      · rfl
      · intro r hrmem hbeq
        exact hc (List.any_eq_true.mpr ⟨r, hrmem, hbeq⟩)
  · intro h
    have hc : ¬((rdf.any fun r => r.id == rid.str) = true) := by
      rw [any_key_iff_mem]; exact h
    unfold RecipeRepository.delete
    rw [if_neg hc]
  · intro h
    have hc : (rdf.any fun r => r.id == rid.str) = true :=
      (any_key_iff_mem (fun r : RecipeRow => r.id) rid.str rdf).mpr h
    obtain ⟨l₁, r, l₂, hrdf, hr, hfst⟩ :=
      exists_key_decomp (fun r : RecipeRow => r.id) rid.str rdf h
    have htail := decomp_tail_ne (fun r : RecipeRow => r.id) rid.str l₁ l₂ r hr
      (hrdf ▸ hndR)
    refine ⟨by unfold RecipeRepository.delete; rw [if_pos hc],
      l₁, r, l₂, hrdf, hr, ?_⟩
    unfold RecipeRepository.delete
    rw [if_pos hc]
    subst hrdf
    rw [List.filter_append, List.filter_cons,
      List.filter_eq_self.mpr (fun a ha => by simp [hfst a ha]),
      List.filter_eq_self.mpr (fun a ha => by simp [htail a ha]),
      if_neg (by simp [hr])]
  · unfold RecipeRepository.delete
    split
    · unfold RecipeRepository.get_by_id
      rw [List.find?_eq_none.mpr]
      · rfl
      · intro r hrmem
        have := (List.mem_filter.mp hrmem).2
        simp only [bne_iff_ne, ne_eq] at this
        simp [this]
    · rename_i hc
      unfold RecipeRepository.get_by_id
      rw [List.find?_eq_none.mpr]
      · rfl
      · intro r hrmem hbeq
        exact hc (List.any_eq_true.mpr ⟨r, hrmem, hbeq⟩)

/-- Witness for C7: deleting the present id from the concrete one-row item
frame succeeds and empties it; deleting a fresh id from the recipe frame
returns `false` unchanged; lookups after delete are absent. -/
theorem delete_removes_row_and_lookup_absent_witness :
    ((ItemRepository.delete sampleItemFrame uuidA).1 = true
      ∧ ∃ l₁ r l₂, sampleItemFrame = l₁ ++ r :: l₂ ∧ r.id = uuidA.str ∧
          (ItemRepository.delete sampleItemFrame uuidA).2 = l₁ ++ l₂)
    ∧ RecipeRepository.delete sampleRecipeFrame uuidB =
        (false, sampleRecipeFrame)
    ∧ ItemRepository.get_by_id (ItemRepository.delete sampleItemFrame uuidA).2
        uuidA = none :=
  ⟨(delete_removes_row_and_lookup_absent sampleItemFrame sampleRecipeFrame
      uuidA uuidB (by decide) (by decide)).2.1 (by decide),
   (delete_removes_row_and_lookup_absent sampleItemFrame sampleRecipeFrame
      uuidA uuidB (by decide) (by decide)).2.2.2.1 (by decide),
   (delete_removes_row_and_lookup_absent sampleItemFrame sampleRecipeFrame
      uuidA uuidB (by decide) (by decide)).2.2.1⟩

/-! ## Claim C8 -/

/-- C8: for a recipe present in the repository whose `required_items` field
parses into identifiers `ids`, `get_by_id_with_details` succeeds with a
view whose recipe fields equal the stored recipe unchanged, whose
`result_item` is the item-repository lookup of `result_item_id` (absent
when no such item exists — a dangling reference is not an error), and
whose `required_item_details` is `get_by_ids ids`: exactly the rows whose
id matches some referenced id, in table order, every returned item
carrying a referenced id. -/
theorem get_by_id_with_details_composition
    (rdf : List RecipeRow) (idf : List ItemRow) (rid : UUID) (r : Recipe)
    (ids : List UUID)
    (hr : RecipeRepository.get_by_id rdf rid = some r)
    (hp : RecipeRepository.parseRequiredItems r.required_items =
      Except.ok ids) :
    RecipeRepository.get_by_id_with_details rdf idf rid =
        Except.ok (some
          { id := r.id, name := r.name, result_item_id := r.result_item_id,
            result_quantity := r.result_quantity,
            required_items := r.required_items,
            required_quantities := r.required_quantities,
            crafting_time := r.crafting_time,
            experience_gain := r.experience_gain,
            result_item := ItemRepository.get_by_id idf r.result_item_id,
            required_item_details :=
              some (ItemRepository.get_by_ids idf ids) })
      ∧ ItemRepository.get_by_ids idf ids =
        (idf.filter fun row => (ids.map UUID.str).contains row.id).map
          ItemRepository.rowToItem
      ∧ (∀ it ∈ ItemRepository.get_by_ids idf ids,
          it.id.str ∈ ids.map UUID.str)
      ∧ (r.result_item_id.str ∉ itemIds idf →
          ItemRepository.get_by_id idf r.result_item_id = none) := by
  refine ⟨?_, rfl, ?_, ?_⟩
  · unfold RecipeRepository.get_by_id_with_details
    rw [hr]
    dsimp only
    rw [hp]
  · intro it hit
    unfold ItemRepository.get_by_ids at hit
    simp only [List.mem_map] at hit
    obtain ⟨row, hrow, hconv⟩ := hit
    have hidmem := (List.mem_filter.mp hrow).2
    rw [← hconv]
    simpa [ItemRepository.rowToItem, UUID.str] using hidmem
  · intro h
    unfold ItemRepository.get_by_id
    rw [List.find?_eq_none.mpr]
    · rfl
    · intro row hrow hbeq
      have hid : row.id = r.result_item_id.str := by simpa using hbeq
      exact h (hid ▸ List.mem_map_of_mem (fun row => row.id) hrow)

/-- Witness for C8 on the concrete one-recipe frame, whose single required
item is present in the one-item frame. -/
theorem get_by_id_with_details_composition_witness :
    RecipeRepository.get_by_id_with_details sampleRecipeFrame sampleItemFrame
        uuidA =
      Except.ok (some
        { id := uuidA, name := sampleRecipeCreate.name,
          result_item_id := sampleRecipeCreate.result_item_id,
          result_quantity := sampleRecipeCreate.result_quantity,
          required_items := sampleRecipeCreate.required_items,
          required_quantities := sampleRecipeCreate.required_quantities,
          crafting_time := sampleRecipeCreate.crafting_time,
          experience_gain := sampleRecipeCreate.experience_gain,
          result_item := ItemRepository.get_by_id sampleItemFrame
            sampleRecipeCreate.result_item_id,
          required_item_details := some (ItemRepository.get_by_ids
            sampleItemFrame [uuidA]) }) :=
  (get_by_id_with_details_composition sampleRecipeFrame sampleItemFrame uuidA
    (RecipeRepository.recipeFromCreate uuidA sampleRecipeCreate) [uuidA]
    (by decide) (by rfl)).1

/-! ## Claim C9 -/

/-- C9: for a recipe present in the repository whose `required_items` field
contains an entry that does not parse as an identifier, the parse failure
escapes `get_by_id_with_details` as an error to the caller — it is not
caught, and neither an absent result nor a partial view is produced. -/
theorem get_by_id_with_details_parse_failure_propagates
    (rdf : List RecipeRow) (idf : List ItemRow) (rid : UUID) (r : Recipe)
    (e : String)
    (hr : RecipeRepository.get_by_id rdf rid = some r)
    (hp : RecipeRepository.parseRequiredItems r.required_items =
      Except.error e) :
    RecipeRepository.get_by_id_with_details rdf idf rid = Except.error e := by
  unfold RecipeRepository.get_by_id_with_details
  rw [hr]
  dsimp only
  rw [hp]

/-- Concrete recipe frame whose single recipe has a malformed
`required_items` entry. -/
def malformedRecipeFrame : List RecipeRow :=
  [{ id := uuidA.str, name := "Broken", result_item_id := uuidA.str,
     result_quantity := 1, required_items := "not-a-uuid",
     required_quantities := "1", crafting_time := 1, experience_gain := 1 }]

/-- Witness for C9: the malformed entry `"not-a-uuid"` escapes as an
error. -/
theorem get_by_id_with_details_parse_failure_propagates_witness :
    RecipeRepository.get_by_id_with_details malformedRecipeFrame
        sampleItemFrame uuidA = Except.error "not-a-uuid" :=
  get_by_id_with_details_parse_failure_propagates malformedRecipeFrame
    sampleItemFrame uuidA
    (RecipeRepository.rowToRecipe (malformedRecipeFrame.get ⟨0, by decide⟩))
    "not-a-uuid" (by decide) (by rfl)

/-! ## Claim C10 -/

/-- Second concrete identifier-keyed row for the C10 witness frame. -/
def sampleItemFrame2 : List ItemRow :=
  [ItemRepository.rowFromCreate uuidA.str sampleItemCreate,
   ItemRepository.rowFromCreate uuidB.str sampleItemCreate]

/-- C10: `get_by_ids` is the membership-filtered scan of the table — the
result lists, in table (row) order, exactly the rows whose id occurs in
the request; the order of the request list is irrelevant; and under the
unique-id invariant each requested entity occurs exactly once in the
output, duplicates in the request notwithstanding. -/
theorem get_by_ids_membership_scan (idf : List ItemRow) (ids : List UUID)
    (hnd : (itemIds idf).Nodup) :
    ItemRepository.get_by_ids idf ids =
        (idf.filter fun r => (ids.map UUID.str).contains r.id).map
          ItemRepository.rowToItem
      ∧ (∀ ids2 : List UUID,
          (∀ s, s ∈ ids.map UUID.str ↔ s ∈ ids2.map UUID.str) →
          ItemRepository.get_by_ids idf ids =
            ItemRepository.get_by_ids idf ids2)
      ∧ ∀ r ∈ idf, r.id ∈ ids.map UUID.str →
          (ItemRepository.get_by_ids idf ids).count
            (ItemRepository.rowToItem r) = 1 := by
  refine ⟨rfl, ?_, ?_⟩
  · intro ids2 hiff
    show (idf.filter fun r => (ids.map UUID.str).contains r.id).map
        ItemRepository.rowToItem =
      (idf.filter fun r => (ids2.map UUID.str).contains r.id).map
        ItemRepository.rowToItem
    apply congrArg
    apply List.filter_congr
    intro r hr
    rw [Bool.eq_iff_iff]
    constructor
    · intro hc
      have hm : r.id ∈ ids.map UUID.str := by simpa using hc
      simpa using (hiff r.id).mp hm
    · intro hc
      have hm : r.id ∈ ids2.map UUID.str := by simpa using hc
      simpa using (hiff r.id).mpr hm
  · intro r hr hmem
    have hnd2 : ((idf.filter fun row =>
        (ids.map UUID.str).contains row.id).map fun row => row.id).Nodup :=
      List.Nodup.sublist ((List.filter_sublist idf).map fun row => row.id) hnd
    have hndrows : (idf.filter fun row =>
        (ids.map UUID.str).contains row.id).Nodup :=
      List.Nodup.of_map (fun row => row.id) hnd2
    have hnditems : ((idf.filter fun row =>
        (ids.map UUID.str).contains row.id).map
          ItemRepository.rowToItem).Nodup := by
      refine List.Nodup.map_on ?_ hndrows
      intro a _ b _ hab
      cases a; cases b
      simpa [ItemRepository.rowToItem, Item.mk.injEq, UUID.mk.injEq,
        ItemRow.mk.injEq] using hab
    have hmemout : ItemRepository.rowToItem r ∈
        (idf.filter fun row =>
          (ids.map UUID.str).contains row.id).map ItemRepository.rowToItem :=
      List.mem_map_of_mem ItemRepository.rowToItem
        (List.mem_filter.mpr ⟨hr, by simpa using hmem⟩)
    exact List.count_eq_one_of_mem hnditems hmemout

/-- Witness for C10: a duplicated, order-scrambled request against the
two-row frame returns each matching entity once, in table order. -/
theorem get_by_ids_membership_scan_witness :
    ItemRepository.get_by_ids sampleItemFrame2 [uuidB, uuidA, uuidB] =
        (sampleItemFrame2.filter fun r =>
          (([uuidB, uuidA, uuidB].map UUID.str)).contains r.id).map
          ItemRepository.rowToItem
      ∧ (ItemRepository.get_by_ids sampleItemFrame2
          [uuidB, uuidA, uuidB]).count
          (ItemRepository.rowToItem
            (ItemRepository.rowFromCreate uuidB.str sampleItemCreate)) = 1 :=
  ⟨(get_by_ids_membership_scan sampleItemFrame2 [uuidB, uuidA, uuidB]
      (by decide)).1,
   (get_by_ids_membership_scan sampleItemFrame2 [uuidB, uuidA, uuidB]
      (by decide)).2.2
     (ItemRepository.rowFromCreate uuidB.str sampleItemCreate)
     (by decide) (by decide)⟩

/-! ## Claim C1 -/

/-- Startup state with both source resolutions yielding no rows (failed
remote fetch and absent local files). -/
def cexStart : AppState :=
  { items_item_repo := [], recipes_item_repo := [], recipes_recipe_repo := [] }

/-- State after one `POST /items` request creating a sample item. -/
def cexAfterCreate : AppState :=
  stepCreateItem cexStart uuidA sampleItemCreate

/-- Counterexample to C1: from a startup state in which the two
`ItemRepository` frames coincide, one item creation through the items
router produces a reachable state in which the frame consulted by the item
endpoints and the frame used by recipe validation and detail composition
differ — the created item is found by the item endpoints but is invisible
to the recipes-side item repository. -/
theorem routers_do_not_share_item_state :
    InitialAppState cexStart ∧ Step cexStart cexAfterCreate
      ∧ cexAfterCreate.items_item_repo ≠ cexAfterCreate.recipes_item_repo
      ∧ (ItemRepository.get_by_id cexAfterCreate.items_item_repo
          uuidA).isSome = true
      ∧ ItemRepository.get_by_id cexAfterCreate.recipes_item_repo uuidA =
        none :=
  ⟨rfl, Step.createItem cexStart uuidA sampleItemCreate, by decide,
    by decide, by decide⟩

/-- C1 amended: `items.py` and `recipes.py` each construct their own
`ItemRepository`, so the process holds two item repository states. No
endpoint ever mutates the recipes-side item state (the state shared by
recipe validation and `recipe_repo`'s detail composition), and an item
created through the item endpoints is observed by subsequent item-endpoint
lookups while leaving the recipes-side item state — hence recipe
validation and detail resolution — entirely unchanged. -/
theorem item_creation_invisible_to_recipe_validation :
    (∀ s s1 : AppState, Step s s1 →
      s1.recipes_item_repo = s.recipes_item_repo)
    ∧ ∀ (s : AppState) (u : UUID) (x : ItemCreate),
        u.str ∉ itemIds s.items_item_repo →
        ItemRepository.get_by_id (stepCreateItem s u x).items_item_repo u =
            some (ItemRepository.itemFromCreate u x)
          ∧ (stepCreateItem s u x).recipes_item_repo =
            s.recipes_item_repo := by
  constructor
  · intro s s1 hstep
    cases hstep <;> rfl
  · intro s u x hfresh
    exact ⟨get_by_id_after_create s.items_item_repo u x hfresh, rfl⟩

/-- Witness for the amended C1 at the concrete startup state. -/
theorem item_creation_invisible_to_recipe_validation_witness :
    ItemRepository.get_by_id
        (stepCreateItem cexStart uuidA sampleItemCreate).items_item_repo
        uuidA = some (ItemRepository.itemFromCreate uuidA sampleItemCreate)
      ∧ (stepCreateItem cexStart uuidA sampleItemCreate).recipes_item_repo =
        cexStart.recipes_item_repo :=
  item_creation_invisible_to_recipe_validation.2 cexStart uuidA
    sampleItemCreate (by decide)
